import Mathlib

/-!
Verification development for the Ticket-Snipper backend core: the event
aggregation and reservation workflow of `src/routes/shows.ts` together with
the checkout / webhook endpoints of `src/routes/payments.ts`.

JavaScript numbers are embedded as `ℚ` (prices) and `ℤ` (counts, quantities,
timestamps); JavaScript `a || b` on numbers and strings is embedded by the
`jsOr*` helpers (0, the empty string, `undefined` are falsy; every other
value, including negative numbers, is truthy); `Math.round` is `jsRound`
(round half toward positive infinity). Optional fields are `Option`;
fallible upstream HTTP calls are `Except` parameters; route handlers are
pure functions of the upstream outcomes.
-/

/-- Embeds JavaScript `Math.round` on a number: the floor of `x + 1/2`
(halves round up, also for negative arguments, as in JS). -/
def jsRound (x : ℚ) : ℤ := (x + 1/2).floor

/-- Embeds JavaScript `a || b` where `a` is an optional number (absent or
zero falls through to `b`; a negative number is truthy and is kept). -/
def jsOrQ (a : Option ℚ) (b : ℚ) : ℚ :=
  match a with
  | some v => if v = 0 then b else v
  | none => b

/-- Embeds JavaScript `a || b` on an optional integer-valued number. -/
def jsOrZ (a : Option ℤ) (b : ℤ) : ℤ :=
  match a with
  | some v => if v = 0 then b else v
  | none => b

/-- Embeds JavaScript `a || b` on strings (the empty string is falsy). -/
def jsOrS (a b : String) : String := if a = "" then b else a

/-- Embeds JavaScript `a || b` where `a` is an optional string, as in
`event.venue?.name || fallback`. -/
def jsOrOS (a : Option String) (b : String) : String :=
  match a with
  | some s => jsOrS s b
  | none => b

/-- True when an optional string environment variable is falsy in JS:
absent or empty, as in `!process.env.TICKET_API_KEY`. -/
def jsFalsyOpt (a : Option String) : Bool :=
  match a with
  | some s => s == ""
  | none => true

/-- The optional `stats` block of a SeatGeek catalog entry
(`SeatGeekEvent.stats` in `shows.ts`): each field independently optional. -/
structure SGStats where
  listing_count : Option ℤ
  lowest_price : Option ℚ
  average_price : Option ℚ
  highest_price : Option ℚ
deriving DecidableEq

/-- One performer of a SeatGeek event (`performers` array element). -/
structure Performer where
  name : String
  image : String
  primary : Bool
deriving DecidableEq

/-- The venue block of a SeatGeek event. -/
structure SGVenue where
  name : String
  city : String
  state : String
deriving DecidableEq

/-- A raw SeatGeek catalog entry, the `SeatGeekEvent` interface of
`shows.ts`. The venue is `Option` because the code reads it with the
optional-chaining operator (`event.venue?.name`). -/
structure SeatGeekEvent where
  id : ℤ
  title : String
  type : String
  datetime_local : String
  venue : Option SGVenue
  performers : List Performer
  short_title : String
  url : String
  stats : Option SGStats
deriving DecidableEq

/-- The internal `Show` record produced by the listings endpoints
(`interface Show` in `shows.ts`); `price` is integral after `Math.round`. -/
structure Show where
  id : String
  title : String
  artist : String
  date : String
  venue : String
  city : String
  saleTime : String
  availableSeats : ℤ
  price : ℤ
  sections : List String
  imageUrl : String
  eventUrl : String
  isAvailable : Bool
deriving DecidableEq

/-- Embeds `event.stats?.listing_count`. -/
def statListing (e : SeatGeekEvent) : Option ℤ := e.stats.bind SGStats.listing_count

/-- Embeds `event.stats?.lowest_price`. -/
def statLowest (e : SeatGeekEvent) : Option ℚ := e.stats.bind SGStats.lowest_price

/-- Embeds `event.stats?.average_price`. -/
def statAverage (e : SeatGeekEvent) : Option ℚ := e.stats.bind SGStats.average_price

/-- Embeds `event.performers.find((p) => p.primary) || event.performers[0]
|| { name: 'Various Artists', image: '' }` from the shows map. -/
def primaryPerformerOf (ps : List Performer) : Performer :=
  match ps.find? (fun p => p.primary) with
  | some p => p
  | none =>
    match ps with
    | p :: _ => p
    | [] => { name := "Various Artists", image := "", primary := false }

/-- Embeds the `events.map((event) => {...})` body of `router.get('/')`
(first variant of `shows.ts`, lines 159-182): the Normalizer. The two date
formatters (`formatDate`, `formatTime` wrap locale rendering of `Date`) are
passed as parameters, since locale formatting is an external collaborator. -/
def normalizeShow (fmtD fmtT : String → String) (e : SeatGeekEvent) : Show :=
  let pp := primaryPerformerOf e.performers
  let listingCount := statListing e
  let lowestPrice := statLowest e
  let averagePrice := statAverage e
  { id := toString e.id
    title := jsOrS e.title (jsOrS e.short_title "Untitled Event")
    artist := pp.name
    date := fmtD e.datetime_local
    venue := jsOrOS (e.venue.map SGVenue.name) "Unknown Venue"
    city := jsOrOS (e.venue.map SGVenue.city) "Unknown" ++ ", "
      ++ jsOrOS (e.venue.map SGVenue.state) ""
    saleTime := fmtT e.datetime_local
    availableSeats := jsOrZ listingCount 0
    price := jsRound (jsOrQ lowestPrice (jsOrQ averagePrice 0))
    sections := ["General Admission"]
    imageUrl := jsOrS pp.image ""
    eventUrl := jsOrS e.url ""
    isAvailable := true }

/-- Price formula exactly as claim C3 words it: lowest_price when
lowest_price is greater than 0, else average_price when greater than 0,
else 0, rounded. -/
def specPriceClaimed (e : SeatGeekEvent) : ℤ :=
  let l := (statLowest e).getD 0
  let a := (statAverage e).getD 0
  jsRound (if 0 < l then l else if 0 < a then a else 0)

/-- Price formula as amended: lowest_price when present and nonzero
(JS truthiness, so a negative lowest_price is also selected), else
average_price when present and nonzero, else 0, rounded. -/
def specPriceAmended (e : SeatGeekEvent) : ℤ :=
  let l := (statLowest e).getD 0
  let a := (statAverage e).getD 0
  jsRound (if l ≠ 0 then l else if a ≠ 0 then a else 0)

/-- Embeds `fetchEventsByCity` (first variant of `shows.ts`, lines 60-84):
the upstream call outcome is a parameter, and the `catch` block turns any
failure into the empty list. -/
def fetchEventsByCity (upstream : Except String (List SeatGeekEvent)) :
    List SeatGeekEvent :=
  match upstream with
  | .ok events => events
  | .error _ => []

/-- Embeds `fetchGeneralEvents` (first variant of `shows.ts`, lines 87-108):
a failed call likewise degrades to the empty list. -/
def fetchGeneralEvents (upstream : Except String (List SeatGeekEvent)) :
    List SeatGeekEvent :=
  match upstream with
  | .ok events => events
  | .error _ => []

/-- Embeds the dedup loop of `fetchAllEvents`: pushes each event whose id is
not yet in the `uniqueEventIds` set onto `allEvents`, recording its id. -/
def addUniqueEvents :
    List SeatGeekEvent → List SeatGeekEvent → List ℤ →
    List SeatGeekEvent × List ℤ
  | [], acc, seen => (acc, seen)
  | e :: rest, acc, seen =>
    if e.id ∈ seen then addUniqueEvents rest acc seen
    else addUniqueEvents rest (acc ++ [e]) (seen ++ [e.id])

/-- Embeds `fetchAllEvents` (first variant of `shows.ts`, lines 111-137):
a city-scoped call happens only for a truthy `location`; its events are
deduplicated into the accumulator first, then the general events. -/
def fetchAllEvents (location : Option String)
    (cityUpstream generalUpstream : Except String (List SeatGeekEvent)) :
    List SeatGeekEvent :=
  let afterCity : List SeatGeekEvent × List ℤ :=
    match location with
    | some loc =>
      if loc = "" then ([], [])
      else addUniqueEvents (fetchEventsByCity cityUpstream) [] []
    | none => ([], [])
  (addUniqueEvents (fetchGeneralEvents generalUpstream) afterCity.1 afterCity.2).1

/-- Recursion skeleton of the dedup loop without the accumulator: keeps the
first event of each id not already in `seen`. Used to reason about
`addUniqueEvents`. -/
def filterNew : List SeatGeekEvent → List ℤ → List SeatGeekEvent
  | [], _ => []
  | e :: rest, seen =>
    if e.id ∈ seen then filterNew rest seen
    else e :: filterNew rest (seen ++ [e.id])

theorem addUniqueEvents_eq (l : List SeatGeekEvent) :
    ∀ (acc : List SeatGeekEvent) (seen : List ℤ),
    addUniqueEvents l acc seen =
      (acc ++ filterNew l seen, seen ++ (filterNew l seen).map SeatGeekEvent.id) := by
  induction l with
  | nil => intro acc seen; simp [addUniqueEvents, filterNew]
  | cons e rest ih =>
    intro acc seen
    by_cases h : e.id ∈ seen
    · simp [addUniqueEvents, filterNew, h, ih]
    · simp [addUniqueEvents, filterNew, h, ih]

theorem filterNew_append (l1 l2 : List SeatGeekEvent) :
    ∀ seen : List ℤ,
    filterNew (l1 ++ l2) seen =
      filterNew l1 seen ++ filterNew l2 (seen ++ (filterNew l1 seen).map SeatGeekEvent.id) := by
  induction l1 with
  | nil => intro seen; simp [filterNew]
  | cons e rest ih =>
    intro seen
    by_cases h : e.id ∈ seen
    · show filterNew (e :: (rest ++ l2)) seen = _
      simp [filterNew, h, ih]
    · show filterNew (e :: (rest ++ l2)) seen = _
      simp only [filterNew, h, ite_false, List.map_cons]
      rw [ih (seen ++ [e.id])]
      simp [List.append_assoc]

theorem filterNew_sublist (l : List SeatGeekEvent) :
    ∀ seen : List ℤ, (filterNew l seen).Sublist l := by
  induction l with
  | nil => intro seen; simp [filterNew]
  | cons e rest ih =>
    intro seen
    by_cases h : e.id ∈ seen
    · simp only [filterNew, h, ite_true]
      exact (ih seen).cons e
    · simp only [filterNew, h, ite_false]
      exact (ih (seen ++ [e.id])).cons₂ e

theorem mem_map_filterNew (l : List SeatGeekEvent) :
    ∀ (seen : List ℤ) (n : ℤ),
    n ∈ (filterNew l seen).map SeatGeekEvent.id ↔
      n ∈ l.map SeatGeekEvent.id ∧ n ∉ seen := by
  induction l with
  | nil => intro seen n; simp [filterNew]
  | cons e rest ih =>
    intro seen n
    by_cases h : e.id ∈ seen
    · simp only [filterNew, h, ite_true, List.map_cons, List.mem_cons]
      rw [ih]
      constructor
      · rintro ⟨hm, hs⟩; exact ⟨Or.inr hm, hs⟩
      · rintro ⟨hm | hm, hs⟩
        · exact absurd (hm ▸ h) hs
        · exact ⟨hm, hs⟩
    · simp only [filterNew, h, ite_false, List.map_cons, List.mem_cons]
      rw [ih]
      constructor
      · rintro (rfl | ⟨hm, hs⟩)
        · exact ⟨Or.inl rfl, h⟩
        · refine ⟨Or.inr hm, fun hn => hs ?_⟩
          simp [hn]
      · rintro ⟨hm | hm, hs⟩
        · exact Or.inl hm
        · by_cases hne : n = e.id
          · exact Or.inl hne
          · refine Or.inr ⟨hm, fun hn => ?_⟩
            rcases List.mem_append.mp hn with h1 | h1
            · exact hs h1
            · simp at h1; exact hne h1

theorem nodup_map_filterNew (l : List SeatGeekEvent) :
    ∀ seen : List ℤ, ((filterNew l seen).map SeatGeekEvent.id).Nodup := by
  induction l with
  | nil => intro seen; simp [filterNew]
  | cons e rest ih =>
    intro seen
    by_cases h : e.id ∈ seen
    · simp only [filterNew, h, ite_true]; exact ih seen
    · simp only [filterNew, h, ite_false, List.map_cons, List.nodup_cons]
      refine ⟨fun hm => ?_, ih (seen ++ [e.id])⟩
      rcases (mem_map_filterNew rest (seen ++ [e.id]) e.id).mp hm with ⟨_, hs⟩
      exact hs (by simp)

theorem find_filterNew (l : List SeatGeekEvent) :
    ∀ (seen : List ℤ) (n : ℤ),
    (filterNew l seen).find? (fun e => e.id == n) =
      if n ∈ seen then none else l.find? (fun e => e.id == n) := by
  induction l with
  | nil => intro seen n; simp [filterNew]
  | cons e rest ih =>
    intro seen n
    by_cases hns : n ∈ seen
    · rw [if_pos hns]
      by_cases h : e.id ∈ seen
      · simp only [filterNew, h, ite_true, ih, if_pos hns]
      · have hne : e.id ≠ n := fun hEq => h (hEq ▸ hns)
        simp only [filterNew, h, ite_false]
        rw [List.find?_cons_of_neg _ (by simp [hne]), ih,
          if_pos (by simp [hns] : n ∈ seen ++ [e.id])]
    · rw [if_neg hns]
      by_cases h : e.id ∈ seen
      · have hne : e.id ≠ n := fun hEq => hns (hEq ▸ h)
        simp only [filterNew, h, ite_true, ih, if_neg hns]
        rw [List.find?_cons_of_neg _ (by simp [hne])]
      · by_cases hn : e.id = n
        · subst hn
          simp only [filterNew, h, ite_false]
          rw [List.find?_cons_of_pos _ (by simp), List.find?_cons_of_pos _ (by simp)]
        · simp only [filterNew, h, ite_false]
          rw [List.find?_cons_of_neg _ (by simp [hn]),
            List.find?_cons_of_neg _ (by simp [hn]), ih,
            if_neg (by simp [List.mem_append, hns, Ne.symm hn] :
              ¬ n ∈ seen ++ [e.id])]

theorem length_filterNew_nil (l : List SeatGeekEvent) :
    (filterNew l []).length = (l.map SeatGeekEvent.id).dedup.length := by
  have hn1 : ((filterNew l []).map SeatGeekEvent.id).Nodup := nodup_map_filterNew l []
  have hn2 : (l.map SeatGeekEvent.id).dedup.Nodup := List.nodup_dedup _
  have hmem : ∀ n : ℤ, n ∈ (filterNew l []).map SeatGeekEvent.id ↔
      n ∈ (l.map SeatGeekEvent.id).dedup := by
    intro n
    rw [mem_map_filterNew, List.mem_dedup]
    simp
  have hperm := (List.perm_ext_iff_of_nodup hn1 hn2).mpr hmem
  have := hperm.length_eq
  simpa using this

theorem filterNew_of_nodup (l : List SeatGeekEvent) :
    ∀ seen : List ℤ, (l.map SeatGeekEvent.id).Nodup →
    (∀ n ∈ l.map SeatGeekEvent.id, n ∉ seen) → filterNew l seen = l := by
  induction l with
  | nil => intro seen _ _; simp [filterNew]
  | cons e rest ih =>
    intro seen hnd hdisj
    have he : e.id ∉ seen := hdisj e.id (by simp)
    simp only [filterNew, he, ite_false]
    congr 1
    apply ih
    · exact (List.nodup_cons.mp (by simpa using hnd)).2
    · intro n hn
      simp only [List.mem_append, List.mem_singleton]
      rintro (hs | rfl)
      · exact hdisj n (by simp [hn]) hs
      · exact (List.nodup_cons.mp (by simpa using hnd)).1 hn

/-- Outcome of the inventory / price validation inside
`router.post('/:id/reserve')` (second variant of `shows.ts`, lines 528-534). -/
inductive ReserveCheck where
  | noTicketsChk
  | insufficientChk (avail : ℤ)
  | invalidPriceChk
  | proceedChk (price : ℚ)
deriving DecidableEq

/-- Embeds the validation block of the second-variant reserve handler:
`listingCount === 0` rejects, `listingCount < quantity` rejects, then the
resolved price must be positive; otherwise the handler proceeds to the
checkout call with that price. -/
def reserveValidate (e : SeatGeekEvent) (quantity : ℤ) : ReserveCheck :=
  let listingCount := jsOrZ (statListing e) 0
  if listingCount = 0 then .noTicketsChk
  else if listingCount < quantity then .insufficientChk listingCount
  else
    let price := jsOrQ (statLowest e) (jsOrQ (statAverage e) 0)
    if price ≤ 0 then .invalidPriceChk
    else .proceedChk price

/-- Embeds the `listingCount` local of the reserve handler,
`event.stats?.listing_count || 0`. -/
def listingCountOf (e : SeatGeekEvent) : ℤ := jsOrZ (statListing e) 0

/-- Embeds the resolved unit price of the reserve handler,
`event.stats?.lowest_price || event.stats?.average_price || 0`. -/
def resolvedPriceOf (e : SeatGeekEvent) : ℚ :=
  jsOrQ (statLowest e) (jsOrQ (statAverage e) 0)

/-- A JSON value as far as the request bodies of this service need:
strings, numbers, booleans and arrays. -/
inductive JVal where
  | jstr (s : String)
  | jnum (q : ℚ)
  | jbool (b : Bool)
  | jarr (elems : ℕ)
deriving DecidableEq

/-- A JSON object body: ordered field list. -/
def JBody := List (String × JVal)

/-- Field lookup in a JSON body (`body.field` on a parsed request). -/
def jGet (body : JBody) (field : String) : Option JVal :=
  match body with
  | [] => none
  | (k, v) :: rest => if k = field then some v else jGet rest field

/-- Embeds JS truthiness of `x?.length` for a looked-up field: absent
fields and non-array, non-string values have no length; an empty array or
string has falsy length 0. -/
def jLenTruthy (v : Option JVal) : Bool :=
  match v with
  | some (.jarr n) => decide (n ≠ 0)
  | some (.jstr s) => decide (s ≠ "")
  | _ => false

/-- Embeds JS truthiness of a looked-up field value itself. -/
def jTruthy (v : Option JVal) : Bool :=
  match v with
  | some (.jstr s) => decide (s ≠ "")
  | some (.jnum q) => decide (q ≠ 0)
  | some (.jbool b) => b
  | some (.jarr _) => true
  | none => false

/-- Embeds the request body that both reserve handlers post to
`/api/payments/stripe/create-checkout-session`
(`{ eventId: id, seatId, quantity, eventTitle: event.title, price }`,
second variant line 539; the first variant sends the same five field
names with a rounded-or-defaulted price value). -/
def reserveCheckoutBody (eventId seatId : String) (quantity : ℤ)
    (eventTitle : String) (price : ℚ) : JBody :=
  [("eventId", .jstr eventId),
   ("seatId", .jstr seatId),
   ("quantity", .jnum (quantity : ℚ)),
   ("eventTitle", .jstr eventTitle),
   ("price", .jnum price)]

/-- Response of `router.post('/stripe/create-checkout-session')` in
`payments.ts`. -/
inductive CheckoutResp where
  | missingFields
  | sessionCreated (url sid : String)
  | checkoutFailed (msg : String)
deriving DecidableEq

/-- Embeds `router.post('/stripe/create-checkout-session')` (`payments.ts`
lines 10-41): destructures `shows`, `userId`, `totalAmount` from the body
and fails with 400 `Missing fields` unless `shows?.length`, `userId` and
`totalAmount` are all truthy; otherwise the Stripe session-creation
outcome (an external call) decides the response. -/
def createCheckoutSession (body : JBody)
    (stripeSession : Except String (String × String)) : CheckoutResp :=
  if !(jLenTruthy (jGet body "shows")) || !(jTruthy (jGet body "userId"))
      || !(jTruthy (jGet body "totalAmount")) then
    .missingFields
  else
    match stripeSession with
    | .ok (url, sid) => .sessionCreated url sid
    | .error m => .checkoutFailed m

/-- Lowercase base-36 digit characters as produced by JS
`Number.prototype.toString(36)`. -/
def digitChar36 (d : Fin 36) : Char :=
  if d.val < 10 then Char.ofNat (48 + d.val) else Char.ofNat (87 + d.val)

/-- Models `Math.random().toString(36)`: a draw from the random source is
represented by the list of base-36 fractional digits JS prints after
`0.` (no trailing zero digits; the empty list is the draw 0, which prints
as just `0`). -/
def jsRandomStr36 (ds : List (Fin 36)) : String :=
  match ds with
  | [] => "0"
  | _ => "0." ++ (ds.map digitChar36).asString

/-- Embeds `String.prototype.substr(start, len)` at the character level. -/
def jsSubstr (s : String) (start len : ℕ) : List Char :=
  (s.toList.drop start).take len

/-- Embeds `Math.random().toString(36).substr(2, 9)`: the random suffix
used in both generated identities. -/
def randSuffixChars (ds : List (Fin 36)) : List Char :=
  jsSubstr (jsRandomStr36 ds) 2 9

/-- Embeds `` `SEAT-${id}-${Date.now()}-${Math.random().toString(36).substr(2, 9)}` ``. -/
def seatIdOf (id : String) (now : ℤ) (ds : List (Fin 36)) : String :=
  "SEAT-" ++ id ++ "-" ++ toString now ++ "-" ++ (randSuffixChars ds).asString

/-- Embeds `` `RES-${Date.now()}-${Math.random().toString(36).substr(2, 9)}` ``. -/
def reservationIdOf (now : ℤ) (ds : List (Fin 36)) : String :=
  "RES-" ++ toString now ++ "-" ++ (randSuffixChars ds).asString

/-- Embeds the `estimatedPrice` expression of the first-variant reserve
handler (line 298): `Math.round(lowestPrice * quantity) || 50 * quantity`
(the product is rounded; a zero rounding falls back to `50 * quantity`). -/
def estimatedPriceV1 (lowestPrice : ℚ) (quantity : ℤ) : ℤ :=
  let r := jsRound (lowestPrice * (quantity : ℚ))
  if r = 0 then 50 * quantity else r

/-- The amended total-price formula in the words of the corrected claim C4:
round the product once, with the `50 * quantity` default when the rounded
product is zero. -/
def specTotalAmended (p : ℚ) (q : ℤ) : ℤ :=
  if jsRound (p * (q : ℚ)) = 0 then 50 * q else jsRound (p * (q : ℚ))

/-- Outcome of the `verifyApiKey` middleware of `shows.ts` (lines 38-49). -/
inductive AuthCheck where
  | configMissing
  | unauthorizedKey
  | authOk
deriving DecidableEq

/-- Embeds `verifyApiKey`: a falsy `TICKET_API_KEY` is a 500 Configuration
Error; a falsy or unequal `x-api-key` header is a 401 Unauthorized;
otherwise `next()` runs the handler. -/
def verifyApiKeyCheck (expectedApiKey apiKeyHeader : Option String) : AuthCheck :=
  match expectedApiKey with
  | none => .configMissing
  | some k =>
    if k = "" then .configMissing
    else
      match apiKeyHeader with
      | none => .unauthorizedKey
      | some h => if h = "" then .unauthorizedKey
        else if h ≠ k then .unauthorizedKey
        else .authOk

/-- Embeds an express route `router.METHOD(path, verifyApiKey, handler)`:
the middleware runs first and short-circuits with its error response and
zero upstream calls; only `next()` reaches the handler. The second
component counts outbound upstream calls. -/
def guarded {α : Type} (expectedApiKey apiKeyHeader : Option String)
    (cfgErr unauthErr : α) (handler : Unit → α × ℕ) : α × ℕ :=
  match verifyApiKeyCheck expectedApiKey apiKeyHeader with
  | .configMissing => (cfgErr, 0)
  | .unauthorizedKey => (unauthErr, 0)
  | .authOk => handler ()

/-- Response of `router.get('/')` in the first variant of `shows.ts`. -/
inductive ListResp where
  | apiConfigErr
  | unauthorizedResp
  | seatgeekConfigErr
  | showsOk (shows : List Show)
deriving DecidableEq

/-- Embeds the handler body of `router.get('/', verifyApiKey, ...)` (first
variant, lines 139-194): checks `SEATGEEK_CLIENT_ID`, fetches either the
merged unique events (fetch_all) or the city query alone, and maps each
event through the Normalizer. The call count is 2 when fetch_all issues
both queries (truthy location), 1 otherwise. -/
def listShowsHandler (clientId : Option String) (location : String)
    (fetchAllFlag : Bool)
    (cityUpstream generalUpstream : Except String (List SeatGeekEvent))
    (fmtD fmtT : String → String) : ListResp × ℕ :=
  if jsFalsyOpt clientId then (.seatgeekConfigErr, 0)
  else
    let events :=
      if fetchAllFlag then fetchAllEvents (some location) cityUpstream generalUpstream
      else fetchEventsByCity cityUpstream
    (.showsOk (events.map (normalizeShow fmtD fmtT)),
      if fetchAllFlag then (if location = "" then 1 else 2) else 1)

/-- Embeds `router.get('/', verifyApiKey, handler)` as a whole. -/
def listShowsRoute (expectedApiKey apiKeyHeader clientId : Option String)
    (location : String) (fetchAllFlag : Bool)
    (cityUpstream generalUpstream : Except String (List SeatGeekEvent))
    (fmtD fmtT : String → String) : ListResp × ℕ :=
  guarded expectedApiKey apiKeyHeader .apiConfigErr .unauthorizedResp
    (fun _ => listShowsHandler clientId location fetchAllFlag
      cityUpstream generalUpstream fmtD fmtT)

/-- Failure modes of the single-event SeatGeek lookup inside the reserve
handler: the upstream 404 is mapped distinctly from other failures. -/
inductive FetchErr where
  | notFoundFetch
  | failedFetch (msg : String)
deriving DecidableEq

/-- Response of `router.post('/:id/reserve')` (second variant). -/
inductive ReserveResp where
  | apiConfigErr
  | unauthorizedResp
  | seatgeekConfigErr
  | eventNotFound
  | noTickets
  | insufficientTickets (avail : ℤ)
  | invalidPrice
  | reserveFailed (msg : String)
  | reserved (reservationId seatId : String) (quantity : ℤ)
      (estimatedPrice : ℚ) (checkoutUrl sessionId : String)
deriving DecidableEq

/-- True exactly on the 200 success response of the reserve handler. -/
def ReserveResp.isReserved : ReserveResp → Bool
  | .reserved _ _ _ _ _ _ => true
  | _ => false

/-- Embeds the handler body of the second-variant
`router.post('/:id/reserve')` (lines 515-566): SeatGeek credential check,
single-event fetch (404 mapped to `eventNotFound`), inventory and price
validation, then the checkout-session call against the own payments
endpoint; a non-2xx checkout response makes `axios.post` throw, which the
generic catch turns into the 500 `Reservation failed` response. -/
def reserveHandler (clientId clientSecret : Option String) (id : String)
    (fetchOutcome : Except FetchErr SeatGeekEvent) (quantity : ℤ)
    (now : ℤ) (seatRand resRand : List (Fin 36))
    (stripeSession : Except String (String × String)) : ReserveResp × ℕ :=
  if jsFalsyOpt clientId || jsFalsyOpt clientSecret then (.seatgeekConfigErr, 0)
  else
    match fetchOutcome with
    | .error .notFoundFetch => (.eventNotFound, 1)
    | .error (.failedFetch m) => (.reserveFailed m, 1)
    | .ok event =>
      match reserveValidate event quantity with
      | .noTicketsChk => (.noTickets, 1)
      | .insufficientChk avail => (.insufficientTickets avail, 1)
      | .invalidPriceChk => (.invalidPrice, 1)
      | .proceedChk price =>
        let seatId := seatIdOf id now seatRand
        match createCheckoutSession
            (reserveCheckoutBody id seatId quantity event.title price)
            stripeSession with
        | .missingFields =>
          (.reserveFailed "Request failed with status code 400", 2)
        | .checkoutFailed _ =>
          (.reserveFailed "Request failed with status code 500", 2)
        | .sessionCreated url sid =>
          (.reserved (reservationIdOf now resRand) seatId quantity
            (price * (quantity : ℚ)) url sid, 2)

/-- Embeds `router.post('/:id/reserve', verifyApiKey, handler)` as a whole. -/
def reserveRoute (expectedApiKey apiKeyHeader clientId clientSecret : Option String)
    (id : String) (fetchOutcome : Except FetchErr SeatGeekEvent) (quantity : ℤ)
    (now : ℤ) (seatRand resRand : List (Fin 36))
    (stripeSession : Except String (String × String)) : ReserveResp × ℕ :=
  guarded expectedApiKey apiKeyHeader .apiConfigErr .unauthorizedResp
    (fun _ => reserveHandler clientId clientSecret id fetchOutcome quantity
      now seatRand resRand stripeSession)

/-- A Stripe event object as far as the webhook dispatch reads it. -/
structure StripeEventObj where
  type : String
  sessionId : String
deriving DecidableEq

/-- The observability-only dispatch target per event kind. -/
inductive DispatchKind where
  | completedLog
  | expiredLog
deriving DecidableEq

/-- Embeds the event-kind dispatch of the webhook handler: logging for
`checkout.session.completed` and `checkout.session.expired`, nothing for
other kinds. -/
def dispatchOf (t : String) : Option DispatchKind :=
  if t = "checkout.session.completed" then some .completedLog
  else if t = "checkout.session.expired" then some .expiredLog
  else none

/-- Response of `router.post('/stripe/webhook')` in `payments.ts`. -/
inductive WebhookResp where
  | secretMissing
  | webhookError (msg : String)
  | received (dispatched : Option DispatchKind)
deriving DecidableEq

/-- Embeds `router.post('/stripe/webhook')` (`payments.ts` lines 54-77):
a falsy `STRIPE_WEBHOOK_SECRET` is a 500; `stripe.webhooks.constructEvent`
(the external signature verification, passed as an `Except` outcome)
throws on an invalid signature, which the catch turns into the 400
response; only a verified event reaches the kind dispatch. -/
def webhookRoute (webhookSecret : Option String)
    (constructEventOutcome : Except String StripeEventObj) : WebhookResp :=
  match webhookSecret with
  | none => .secretMissing
  | some s =>
    if s = "" then .secretMissing
    else
      match constructEventOutcome with
      | .error m => .webhookError m
      | .ok ev => .received (dispatchOf ev.type)

theorem jsRound_intCast (m : ℤ) : jsRound (m : ℚ) = m := by
  unfold jsRound
  have h1 : m ≤ ((m : ℚ) + 1/2).floor := Rat.le_floor.mpr (by linarith)
  have h2 : ((m : ℚ) + 1/2).floor < m + 1 := by
    by_contra hc
    push_neg at hc
    have := Rat.le_floor.mp hc
    push_cast at this
    linarith
  omega

theorem jsRound_nonneg (x : ℚ) (h : 0 ≤ x) : 0 ≤ jsRound x := by
  unfold jsRound
  exact Rat.le_floor.mpr (by push_cast; linarith)

theorem toDigitsCore_length_le (b : ℕ) :
    ∀ (fuel n : ℕ) (ds : List Char),
    ds.length ≤ (Nat.toDigitsCore b fuel n ds).length := by
  intro fuel
  induction fuel with
  | zero => intro n ds; simp [Nat.toDigitsCore]
  | succ f ih =>
    intro n ds
    simp only [Nat.toDigitsCore]
    by_cases h : n / b = 0
    · simp [h]
    · simp only [h, ite_false]
      calc ds.length ≤ (Nat.digitChar (n % b) :: ds).length := by simp
        _ ≤ _ := ih (n / b) (Nat.digitChar (n % b) :: ds)

theorem toDigits_length_pos (b n : ℕ) : 0 < (Nat.toDigits b n).length := by
  show 0 < (Nat.toDigitsCore b (n + 1) n []).length
  simp only [Nat.toDigitsCore]
  by_cases h : n / b = 0
  · simp [h]
  · simp only [h, ite_false]
    have := toDigitsCore_length_le b n (n / b) [Nat.digitChar (n % b)]
    simp only [List.length_singleton] at this
    omega

theorem natRepr_ne_empty (n : ℕ) : Nat.repr n ≠ "" := by
  intro h
  have hd : (Nat.toDigits 10 n) = [] := by
    have := congrArg String.data h
    simpa [Nat.repr, List.asString] using this
  have := toDigits_length_pos 10 n
  rw [hd] at this
  simp at this

theorem toString_int_ne_empty (i : ℤ) : toString i ≠ "" := by
  cases i with
  | ofNat m => exact natRepr_ne_empty m
  | negSucc m =>
    show "-" ++ Nat.repr (m + 1) ≠ ""
    intro h
    have := congrArg String.data h
    simp [String.data_append] at this

/-- C3: the normalized price of the Normalizer as a function of the claim
and amended spec formulas. First conjunct: the code price always equals the
amended formula (JS truthiness selection, then rounding). Second conjunct:
whenever the present stats fields are nonnegative, the amended formula
coincides with the formula exactly as the claim words it, so the claim
holds on nonnegative stats. -/
theorem normalizeShow_price_spec (fmtD fmtT : String → String) (e : SeatGeekEvent) :
    (normalizeShow fmtD fmtT e).price = specPriceAmended e
    ∧ (0 ≤ (statLowest e).getD 0 → 0 ≤ (statAverage e).getD 0 →
        specPriceAmended e = specPriceClaimed e) := by
  constructor
  · show jsRound (jsOrQ (statLowest e) (jsOrQ (statAverage e) 0)) = specPriceAmended e
    unfold specPriceAmended
    rcases hl : statLowest e with _ | l <;> rcases ha : statAverage e with _ | a
    · simp [jsOrQ]
    · by_cases haz : a = 0 <;> simp [jsOrQ, haz]
    · by_cases hlz : l = 0 <;> simp [jsOrQ, hlz]
    · by_cases hlz : l = 0 <;> by_cases haz : a = 0 <;> simp [jsOrQ, hlz, haz]
  · intro hl ha
    unfold specPriceAmended specPriceClaimed
    rcases hle : statLowest e with _ | l <;> rcases hae : statAverage e with _ | a
    · simp
    · rw [hae] at ha
      simp only [Option.getD_some] at ha ⊢
      by_cases haz : a = 0
      · simp [haz]
      · have : 0 < a := lt_of_le_of_ne ha (Ne.symm haz)
        simp [haz, this, not_lt_of_lt, lt_irrefl]
    · rw [hle] at hl
      simp only [Option.getD_some] at hl ⊢
      by_cases hlz : l = 0
      · simp [hlz]
      · have : 0 < l := lt_of_le_of_ne hl (Ne.symm hlz)
        simp [hlz, this]
    · rw [hle] at hl
      rw [hae] at ha
      simp only [Option.getD_some] at hl ha ⊢
      by_cases hlz : l = 0
      · by_cases haz : a = 0
        · simp [hlz, haz]
        · have : 0 < a := lt_of_le_of_ne ha (Ne.symm haz)
          simp [hlz, haz, this]
      · have : 0 < l := lt_of_le_of_ne hl (Ne.symm hlz)
        simp [hlz, this]

/-- Concrete catalog entry for the C3 counterexample: a negative
lowest_price next to a positive average_price. -/
def cEventC3 : SeatGeekEvent :=
  { id := 42, title := "Jazz Night", type := "concert",
    datetime_local := "2026-03-01T20:00:00",
    venue := some { name := "Blue Note", city := "New York", state := "NY" },
    performers := [], short_title := "Jazz", url := "",
    stats := some { listing_count := some 10, lowest_price := some (-5),
                    average_price := some 10, highest_price := none } }

/-- C3 counterexample: on an entry with lowest_price = -5 and
average_price = 10 the code keeps the (truthy) negative lowest_price and
returns -5, while the formula in the claim skips the non-positive
lowest_price and returns 10. -/
theorem c3_price_counterexample :
    (normalizeShow (fun s => s) (fun s => s) cEventC3).price = -5
    ∧ specPriceClaimed cEventC3 = 10 := by
  constructor
  · show jsRound (jsOrQ (statLowest cEventC3) (jsOrQ (statAverage cEventC3) 0)) = -5
    norm_num [cEventC3, statLowest, statAverage, jsOrQ, jsRound, Rat.floor_def']
  · norm_num [cEventC3, statLowest, statAverage, specPriceClaimed, jsRound,
      Rat.floor_def']

/-- C7 (amended): for every entry whose present stats fields are
nonnegative, the Normalizer output has nonnegative price and seat count;
the id is nonempty for every entry unconditionally. -/
theorem normalizeShow_invariants (fmtD fmtT : String → String) (e : SeatGeekEvent)
    (hl : 0 ≤ (statLowest e).getD 0) (ha : 0 ≤ (statAverage e).getD 0)
    (hc : 0 ≤ (statListing e).getD 0) :
    0 ≤ (normalizeShow fmtD fmtT e).price
    ∧ 0 ≤ (normalizeShow fmtD fmtT e).availableSeats
    ∧ (normalizeShow fmtD fmtT e).id ≠ "" := by
  refine ⟨?_, ?_, ?_⟩
  · show 0 ≤ jsRound (jsOrQ (statLowest e) (jsOrQ (statAverage e) 0))
    apply jsRound_nonneg
    rcases hle : statLowest e with _ | l <;> rcases hae : statAverage e with _ | a
    · simp [jsOrQ]
    · rw [hae] at ha
      simp only [Option.getD_some] at ha
      by_cases haz : a = 0 <;> simp [jsOrQ, haz, ha]
    · rw [hle] at hl
      simp only [Option.getD_some] at hl
      by_cases hlz : l = 0 <;> simp [jsOrQ, hlz, hl]
    · rw [hle] at hl
      rw [hae] at ha
      simp only [Option.getD_some] at hl ha
      by_cases hlz : l = 0 <;> by_cases haz : a = 0 <;>
        simp [jsOrQ, hlz, haz, hl, ha]
  · show 0 ≤ jsOrZ (statListing e) 0
    rcases hce : statListing e with _ | c
    · simp [jsOrZ]
    · rw [hce] at hc
      simp only [Option.getD_some] at hc
      by_cases hcz : c = 0 <;> simp [jsOrZ, hcz, hc]
  · show toString e.id ≠ ""
    exact toString_int_ne_empty e.id

/-- Concrete catalog entry for the C7 counterexample: negative
lowest_price and negative listing_count pass straight through the JS
truthiness fallbacks. -/
def cEventC7 : SeatGeekEvent :=
  { id := 77, title := "Broken Stats", type := "concert",
    datetime_local := "2026-04-01T20:00:00",
    venue := none, performers := [], short_title := "", url := "",
    stats := some { listing_count := some (-3), lowest_price := some (-7),
                    average_price := none, highest_price := none } }

/-- C7 counterexample: an entry with lowest_price = -7 and
listing_count = -3 normalizes to a negative price and a negative seat
count, refuting the unconditional invariant. -/
theorem c7_invariant_counterexample :
    (normalizeShow (fun s => s) (fun s => s) cEventC7).price = -7
    ∧ (normalizeShow (fun s => s) (fun s => s) cEventC7).availableSeats = -3 := by
  constructor
  · show jsRound (jsOrQ (statLowest cEventC7) (jsOrQ (statAverage cEventC7) 0)) = -7
    norm_num [cEventC7, statLowest, statAverage, jsOrQ, jsRound, Rat.floor_def']
  · show jsOrZ (statListing cEventC7) 0 = -3
    norm_num [cEventC7, statListing, jsOrZ]

/-- Witness for the C7 amended theorem at a concrete entry with
nonnegative stats. -/
def cEventC7w : SeatGeekEvent :=
  { id := 4201, title := "Healthy Stats", type := "concert",
    datetime_local := "2026-05-01T20:00:00",
    venue := some { name := "Garden", city := "Boston", state := "MA" },
    performers := [{ name := "Band", image := "", primary := true }],
    short_title := "", url := "",
    stats := some { listing_count := some 12, lowest_price := some 25,
                    average_price := some 40, highest_price := some 90 } }

/-- Witness instantiating the C7 amended theorem at `cEventC7w`. -/
theorem normalizeShow_invariants_witness :
    0 ≤ (normalizeShow (fun s => s) (fun s => s) cEventC7w).price
    ∧ 0 ≤ (normalizeShow (fun s => s) (fun s => s) cEventC7w).availableSeats
    ∧ (normalizeShow (fun s => s) (fun s => s) cEventC7w).id ≠ "" :=
  normalizeShow_invariants (fun s => s) (fun s => s) cEventC7w
    (by norm_num [cEventC7w, statLowest])
    (by norm_num [cEventC7w, statAverage])
    (by norm_num [cEventC7w, statListing])

/-- C4 counterexample: with resolved unit price 25.4 and quantity 2 the
code rounds the product (51), while round-first-then-multiply gives
25 * 2 = 50. -/
theorem c4_total_counterexample :
    estimatedPriceV1 (127/5) 2 = 51 ∧ jsRound (127/5) * 2 = 50 := by
  constructor
  · show (if jsRound ((127/5 : ℚ) * ((2 : ℤ) : ℚ)) = 0
        then 50 * 2 else jsRound ((127/5 : ℚ) * ((2 : ℤ) : ℚ))) = 51
    norm_num [jsRound, Rat.floor_def']
  · norm_num [jsRound, Rat.floor_def']

/-- C4 (amended): the returned total is the product rounded once, with the
`50 * quantity` fallback when that rounding is zero (first conjunct:
equality with the amended formula for all inputs); when the resolved unit
price is a whole number and the rounded product is nonzero, this agrees
with the claim's round-first form `round(p) * q` (second conjunct). -/
theorem estimatedPriceV1_spec :
    (∀ (p : ℚ) (q : ℤ), estimatedPriceV1 p q = specTotalAmended p q)
    ∧ ∀ (n q : ℤ), jsRound ((n : ℚ) * (q : ℚ)) ≠ 0 →
        estimatedPriceV1 (n : ℚ) q = jsRound (n : ℚ) * q := by
  constructor
  · intro p q
    simp [estimatedPriceV1, specTotalAmended]
  · intro n q hnz
    have hcast : ((n : ℚ) * (q : ℚ)) = ((n * q : ℤ) : ℚ) := by push_cast; ring
    have hprod : jsRound ((n : ℚ) * (q : ℚ)) = n * q := by
      rw [hcast, jsRound_intCast]
    have hne : n * q ≠ 0 := by rw [← hprod]; exact hnz
    simp only [estimatedPriceV1, hprod, jsRound_intCast n]
    rw [if_neg hne]

/-- C1 (amended): exact characterization of the quantity/price validation
of the second-variant reserve handler. It rejects with the no-tickets
error exactly when the listing count resolves to 0, with the
insufficient-tickets error exactly when the nonzero listing count is less
than the requested quantity, and proceeds to checkout exactly when the
listing count is nonzero, the quantity does not exceed it (any such
quantity, including 0 and negatives, passes), and the resolved price is
positive. -/
theorem reserveValidate_spec (e : SeatGeekEvent) (q : ℤ) :
    (reserveValidate e q = .noTicketsChk ↔ listingCountOf e = 0)
    ∧ (reserveValidate e q = .insufficientChk (listingCountOf e) ↔
        listingCountOf e ≠ 0 ∧ listingCountOf e < q)
    ∧ (reserveValidate e q = .proceedChk (resolvedPriceOf e) ↔
        listingCountOf e ≠ 0 ∧ q ≤ listingCountOf e ∧ 0 < resolvedPriceOf e) := by
  unfold reserveValidate listingCountOf resolvedPriceOf
  by_cases h0 : jsOrZ (statListing e) 0 = 0
  · simp [h0]
  · by_cases hq : jsOrZ (statListing e) 0 < q
    · simp [h0, hq, not_le_of_lt hq]
    · by_cases hp : jsOrQ (statLowest e) (jsOrQ (statAverage e) 0) ≤ 0
      · simp [h0, hq, hp, not_lt_of_le hp, le_of_not_lt hq]
      · simp [h0, hq, hp, le_of_not_lt hq, lt_of_not_le hp]

/-- Concrete event for the C1 counterexample: 10 available listings at a
positive price. -/
def cEventC1 : SeatGeekEvent :=
  { id := 42, title := "Jazz Night", type := "concert",
    datetime_local := "2026-03-01T20:00:00",
    venue := some { name := "Blue Note", city := "New York", state := "NY" },
    performers := [], short_title := "Jazz", url := "",
    stats := some { listing_count := some 10, lowest_price := some 25,
                    average_price := none, highest_price := none } }

/-- C1 counterexample: `reserve(id, quantity = 0)` on a listing with 10
available seats and price 25 does not fail with any quantity error: the
validation proceeds to the checkout step. -/
theorem c1_zero_quantity_counterexample :
    reserveValidate cEventC1 0 = .proceedChk 25 := by
  show (if jsOrZ (statListing cEventC1) 0 = 0 then ReserveCheck.noTicketsChk
    else if jsOrZ (statListing cEventC1) 0 < 0 then
      ReserveCheck.insufficientChk (jsOrZ (statListing cEventC1) 0)
    else if jsOrQ (statLowest cEventC1) (jsOrQ (statAverage cEventC1) 0) ≤ 0 then
      ReserveCheck.invalidPriceChk
    else ReserveCheck.proceedChk
      (jsOrQ (statLowest cEventC1) (jsOrQ (statAverage cEventC1) 0))) =
    ReserveCheck.proceedChk 25
  norm_num [cEventC1, statListing, statLowest, statAverage, jsOrZ, jsOrQ]

/-- C2: the body posted by the reserve handlers carries exactly the fields
eventId, seatId, quantity, eventTitle, price; it has none of the fields
shows, userId, totalAmount that the create-checkout-session endpoint
requires, so that endpoint always answers with its Missing-fields failure
for such a body, and consequently no reserve call ever produces the 200
reserved response. -/
theorem reserveCheckout_always_fails :
    (∀ (id sid : String) (q : ℤ) (title : String) (price : ℚ),
      (reserveCheckoutBody id sid q title price).map Prod.fst =
        ["eventId", "seatId", "quantity", "eventTitle", "price"]
      ∧ (jGet (reserveCheckoutBody id sid q title price) "shows").isNone = true
      ∧ (jGet (reserveCheckoutBody id sid q title price) "userId").isNone = true
      ∧ (jGet (reserveCheckoutBody id sid q title price) "totalAmount").isNone = true)
    ∧ (∀ (id sid : String) (q : ℤ) (title : String) (price : ℚ)
        (stripeSession : Except String (String × String)),
      createCheckoutSession (reserveCheckoutBody id sid q title price)
        stripeSession = .missingFields)
    ∧ ∀ (expectedApiKey apiKeyHeader clientId clientSecret : Option String)
        (id : String) (fetchOutcome : Except FetchErr SeatGeekEvent)
        (quantity now : ℤ) (seatRand resRand : List (Fin 36))
        (stripeSession : Except String (String × String)),
      (reserveRoute expectedApiKey apiKeyHeader clientId clientSecret id
        fetchOutcome quantity now seatRand resRand stripeSession).1.isReserved
        = false := by
  have hbody : ∀ (id sid : String) (q : ℤ) (title : String) (price : ℚ),
      (jGet (reserveCheckoutBody id sid q title price) "shows").isNone = true
      ∧ (jGet (reserveCheckoutBody id sid q title price) "userId").isNone = true
      ∧ (jGet (reserveCheckoutBody id sid q title price) "totalAmount").isNone
        = true := by
    intro id sid q title price
    refine ⟨?_, ?_, ?_⟩ <;> simp [reserveCheckoutBody, jGet]
  have hmiss : ∀ (id sid : String) (q : ℤ) (title : String) (price : ℚ)
      (st : Except String (String × String)),
      createCheckoutSession (reserveCheckoutBody id sid q title price) st
        = .missingFields := by
    intro id sid q title price st
    have h := (hbody id sid q title price).1
    unfold createCheckoutSession
    rw [if_pos]
    rcases hv : jGet (reserveCheckoutBody id sid q title price) "shows" with _ | v
    · simp [jLenTruthy]
    · rw [hv] at h
      simp at h
  refine ⟨?_, hmiss, ?_⟩
  · intro id sid q title price
    exact ⟨by simp [reserveCheckoutBody], hbody id sid q title price⟩
  · intro expectedApiKey apiKeyHeader clientId clientSecret id fetchOutcome
      quantity now seatRand resRand stripeSession
    unfold reserveRoute guarded
    rcases verifyApiKeyCheck expectedApiKey apiKeyHeader
    · simp [ReserveResp.isReserved]
    · simp [ReserveResp.isReserved]
    · unfold reserveHandler
      by_cases hcfg : (jsFalsyOpt clientId || jsFalsyOpt clientSecret) = true
      · simp [hcfg, ReserveResp.isReserved]
      · simp only [Bool.not_eq_true] at hcfg
        rw [hcfg]
        rcases fetchOutcome with err | event
        · rcases err <;> simp [ReserveResp.isReserved]
        · simp only
          rcases reserveValidate event quantity with _ | avail | _ | price
          · simp [ReserveResp.isReserved]
          · simp [ReserveResp.isReserved]
          · simp [ReserveResp.isReserved]
          · simp [hmiss, ReserveResp.isReserved]

/-- C5: aggregation with fetch_all and a truthy location over two upstream
result lists returns one event per distinct id (length equals the distinct
id count), with no duplicated id, in merge order city-first-then-general
(a sublist of the concatenation), and for every id the retained event is
the first occurrence in the concatenation, so a city-scoped occurrence
wins over a later general duplicate. -/
theorem fetchAll_dedup_spec (loc : String) (hloc : loc ≠ "")
    (city gen : List SeatGeekEvent) :
    (fetchAllEvents (some loc) (.ok city) (.ok gen)).length
      = ((city ++ gen).map SeatGeekEvent.id).dedup.length
    ∧ ((fetchAllEvents (some loc) (.ok city) (.ok gen)).map SeatGeekEvent.id).Nodup
    ∧ (fetchAllEvents (some loc) (.ok city) (.ok gen)).Sublist (city ++ gen)
    ∧ ∀ n : ℤ, (fetchAllEvents (some loc) (.ok city) (.ok gen)).find?
        (fun e => e.id == n) = (city ++ gen).find? (fun e => e.id == n) := by
  have hr : fetchAllEvents (some loc) (.ok city) (.ok gen)
      = filterNew (city ++ gen) [] := by
    unfold fetchAllEvents fetchEventsByCity fetchGeneralEvents
    simp only [if_neg hloc, addUniqueEvents_eq, List.nil_append]
    rw [filterNew_append]
    simp
  rw [hr]
  refine ⟨length_filterNew_nil _, nodup_map_filterNew _ _,
    filterNew_sublist _ _, ?_⟩
  intro n
  rw [find_filterNew]
  simp

/-- Concrete events for the C5 witness: ids 1, 2 in the city list; the
general list repeats id 2 with a different title and adds id 3. -/
def cEventC5a : SeatGeekEvent :=
  { id := 1, title := "City One", type := "concert",
    datetime_local := "2026-03-01T20:00:00", venue := none, performers := [],
    short_title := "", url := "", stats := none }

def cEventC5b : SeatGeekEvent :=
  { id := 2, title := "City Two", type := "concert",
    datetime_local := "2026-03-02T20:00:00", venue := none, performers := [],
    short_title := "", url := "", stats := none }

def cEventC5b2 : SeatGeekEvent :=
  { id := 2, title := "General Duplicate Of Two", type := "concert",
    datetime_local := "2026-03-02T20:00:00", venue := none, performers := [],
    short_title := "", url := "", stats := none }

def cEventC5c : SeatGeekEvent :=
  { id := 3, title := "General Three", type := "concert",
    datetime_local := "2026-03-03T20:00:00", venue := none, performers := [],
    short_title := "", url := "", stats := none }

/-- Witness instantiating C5 on two overlapping concrete lists: 4 input
events, 3 distinct ids, and the city occurrence of id 2 is retained. -/
theorem fetchAll_dedup_spec_witness :
    (fetchAllEvents (some "New York") (.ok [cEventC5a, cEventC5b])
      (.ok [cEventC5b2, cEventC5c])).length = 3
    ∧ (fetchAllEvents (some "New York") (.ok [cEventC5a, cEventC5b])
        (.ok [cEventC5b2, cEventC5c])).find? (fun e => e.id == 2)
      = some cEventC5b := by
  have h := fetchAll_dedup_spec "New York" (by decide)
    [cEventC5a, cEventC5b] [cEventC5b2, cEventC5c]
  constructor
  · rw [h.1]; decide
  · rw [h.2.2.2 2]; decide

/-- C6: when the general query fails and the city query succeeds, the
aggregation returns exactly the city events deduplicated among themselves
(equal to the city list itself when its ids are distinct), in order, and
no error: each failed upstream call contributes the empty list. -/
theorem fetchAll_partial_failure (loc : String) (hloc : loc ≠ "")
    (city : List SeatGeekEvent) (errMsg : String) :
    fetchGeneralEvents (.error errMsg) = []
    ∧ fetchEventsByCity (.error errMsg) = []
    ∧ fetchAllEvents (some loc) (.ok city) (.error errMsg) = filterNew city []
    ∧ (fetchAllEvents (some loc) (.ok city) (.error errMsg)).Sublist city
    ∧ ((fetchAllEvents (some loc) (.ok city) (.error errMsg)).map
        SeatGeekEvent.id).Nodup
    ∧ ((city.map SeatGeekEvent.id).Nodup →
        fetchAllEvents (some loc) (.ok city) (.error errMsg) = city) := by
  have hr : fetchAllEvents (some loc) (.ok city) (.error errMsg)
      = filterNew city [] := by
    unfold fetchAllEvents fetchEventsByCity fetchGeneralEvents
    simp only [if_neg hloc, addUniqueEvents_eq, List.nil_append]
    simp [filterNew]
  refine ⟨rfl, rfl, hr, ?_, ?_, ?_⟩
  · rw [hr]; exact filterNew_sublist _ _
  · rw [hr]; exact nodup_map_filterNew _ _
  · intro hnd
    rw [hr]
    exact filterNew_of_nodup city [] hnd (by simp)

/-- Concrete events for the C6 witness. -/
def cEventC6a : SeatGeekEvent :=
  { id := 5, title := "City Five", type := "concert",
    datetime_local := "2026-03-05T20:00:00", venue := none, performers := [],
    short_title := "", url := "", stats := none }

def cEventC6b : SeatGeekEvent :=
  { id := 6, title := "City Six", type := "concert",
    datetime_local := "2026-03-06T20:00:00", venue := none, performers := [],
    short_title := "", url := "", stats := none }

/-- Witness instantiating C6: a failed general query and two distinct city
events come back unchanged. -/
theorem fetchAll_partial_failure_witness :
    fetchAllEvents (some "New York") (.ok [cEventC6a, cEventC6b])
      (.error "timeout of 10000ms exceeded") = [cEventC6a, cEventC6b] := by
  have h := fetchAll_partial_failure "New York" (by decide)
    [cEventC6a, cEventC6b] "timeout of 10000ms exceeded"
  exact h.2.2.2.2.2 (by decide)

/-- C8 counterexample: the draw 0 renders as `"0"`, whose
`substr(2, 9)` is empty, so the random suffix has 0 symbols rather than at
least 9. -/
theorem c8_suffix_counterexample :
    (randSuffixChars []).length = 0 ∧ jsRandomStr36 [] = "0" := by
  constructor
  · decide
  · rfl

/-- C8 (amended): the random suffix has exactly `min 9 d` symbols, where
`d` is the number of base-36 fractional digits of the draw: at most 9,
fewer whenever the draw prints fewer than 9 fractional digits. Every
suffix symbol is alphanumeric, and both generated identities are the
prefix tag plus the timestamp plus that suffix, so the suffix contributes
its `min 9 d` symbols to each identity length. -/
theorem randSuffix_spec (ds : List (Fin 36)) :
    (randSuffixChars ds).length = min 9 ds.length
    ∧ (randSuffixChars ds).all Char.isAlphanum = true
    ∧ ∀ (id : String) (now : ℤ),
      (seatIdOf id now ds).length
        = id.length + (toString now).length + (randSuffixChars ds).length + 7
      ∧ (reservationIdOf now ds).length
        = (toString now).length + (randSuffixChars ds).length + 5 := by
  have hchars : ∀ d : Fin 36, (digitChar36 d).isAlphanum = true := by decide
  have hsuffix : ∀ l : List (Fin 36),
      randSuffixChars l = (l.map digitChar36).take 9 ∨ l = [] := by
    intro l
    cases l with
    | nil => exact Or.inr rfl
    | cons d rest =>
      left
      show jsSubstr ("0." ++ ((d :: rest).map digitChar36).asString) 2 9 = _
      unfold jsSubstr
      have hdata : ("0." ++ ((d :: rest).map digitChar36).asString).toList
          = '0' :: '.' :: (d :: rest).map digitChar36 := by
        show ("0." ++ ((d :: rest).map digitChar36).asString).data = _
        rw [String.data_append]
        rfl
      rw [hdata]
      rfl
  refine ⟨?_, ?_, ?_⟩
  · rcases hsuffix ds with h | h
    · rw [h, List.length_take, List.length_map]
    · subst h; decide
  · rcases hsuffix ds with h | h
    · rw [h, List.all_eq_true]
      intro c hc
      rcases List.mem_map.mp (List.mem_of_mem_take hc) with ⟨d, _, rfl⟩
      exact hchars d
    · subst h; decide
  · intro id now
    constructor
    · show ("SEAT-" ++ id ++ "-" ++ toString now ++ "-"
        ++ (randSuffixChars ds).asString).length = _
      simp only [String.length_append]
      have : ((randSuffixChars ds).asString).length = (randSuffixChars ds).length := by
        rfl
      rw [this]
      show 5 + id.length + 1 + (toString now).length + 1
        + (randSuffixChars ds).length = _
      omega
    · show ("RES-" ++ toString now ++ "-"
        ++ (randSuffixChars ds).asString).length = _
      simp only [String.length_append]
      have : ((randSuffixChars ds).asString).length = (randSuffixChars ds).length := by
        rfl
      rw [this]
      show 4 + (toString now).length + 1 + (randSuffixChars ds).length = _
      omega

/-- C9: with a configured (truthy) webhook secret, a delivery whose
signature verification throws is answered with the 400 webhook-error
response and reaches no event-kind dispatch (the error response carries
none); conversely any response that carries a dispatch can only arise from
a delivery whose verification succeeded, with the dispatch determined by
the verified event kind. -/
theorem webhook_invalid_signature (secret : String) (hs : secret ≠ "") :
    (∀ m : String, webhookRoute (some secret) (.error m) = .webhookError m)
    ∧ ∀ (res : Except String StripeEventObj) (d : Option DispatchKind),
      webhookRoute (some secret) res = .received d →
      ∃ ev : StripeEventObj, res = .ok ev ∧ d = dispatchOf ev.type := by
  constructor
  · intro m
    show (if secret = "" then WebhookResp.secretMissing
      else WebhookResp.webhookError m) = WebhookResp.webhookError m
    rw [if_neg hs]
  · intro res d h
    rcases res with m | ev
    · have h2 : (if secret = "" then WebhookResp.secretMissing
          else WebhookResp.webhookError m) = .received d := h
      rw [if_neg hs] at h2
      exact absurd h2 (by simp)
    · refine ⟨ev, rfl, ?_⟩
      have h2 : (if secret = "" then WebhookResp.secretMissing
          else WebhookResp.received (dispatchOf ev.type)) = .received d := h
      rw [if_neg hs] at h2
      simpa using h2.symm

/-- Witness instantiating C9 at a concrete secret and a concrete
verification failure. -/
theorem webhook_invalid_signature_witness :
    webhookRoute (some "whsec_testsecret")
      (.error "No signatures found matching the expected signature")
      = .webhookError "No signatures found matching the expected signature" :=
  (webhook_invalid_signature "whsec_testsecret" (by decide)).1
    "No signatures found matching the expected signature"

/-- C10: a missing or empty configured TICKET_API_KEY yields the 500
configuration error whatever the caller sends; with a configured key, an
absent or unequal x-api-key header yields the 401 unauthorized error; in a
guarded route either middleware failure short-circuits with zero upstream
calls (shown generically for `guarded` and concretely for the listings and
reserve routes); the two failures are distinct responses. -/
theorem auth_fail_fast :
    (∀ header : Option String,
      verifyApiKeyCheck none header = .configMissing
      ∧ verifyApiKeyCheck (some "") header = .configMissing)
    ∧ (∀ k : String, k ≠ "" →
      verifyApiKeyCheck (some k) none = .unauthorizedKey
      ∧ ∀ h : String, h ≠ k →
        verifyApiKeyCheck (some k) (some h) = .unauthorizedKey)
    ∧ (∀ (α : Type) (expected header : Option String) (cfgErr unauthErr : α)
        (handler : Unit → α × ℕ),
      (verifyApiKeyCheck expected header = .configMissing →
        guarded expected header cfgErr unauthErr handler = (cfgErr, 0))
      ∧ (verifyApiKeyCheck expected header = .unauthorizedKey →
        guarded expected header cfgErr unauthErr handler = (unauthErr, 0)))
    ∧ (∀ (apiKeyHeader clientId : Option String) (location : String)
        (fa : Bool) (cu gu : Except String (List SeatGeekEvent))
        (fmtD fmtT : String → String),
      listShowsRoute none apiKeyHeader clientId location fa cu gu fmtD fmtT
        = (.apiConfigErr, 0))
    ∧ (∀ (apiKeyHeader clientId clientSecret : Option String) (id : String)
        (fo : Except FetchErr SeatGeekEvent) (quantity now : ℤ)
        (sr rr : List (Fin 36)) (st : Except String (String × String)),
      reserveRoute none apiKeyHeader clientId clientSecret id fo quantity now
        sr rr st = (.apiConfigErr, 0))
    ∧ AuthCheck.configMissing ≠ AuthCheck.unauthorizedKey
    ∧ ListResp.apiConfigErr ≠ ListResp.unauthorizedResp := by
  refine ⟨?_, ?_, ?_, ?_, ?_, by simp, by simp⟩
  · intro header
    exact ⟨rfl, by simp [verifyApiKeyCheck]⟩
  · intro k hk
    refine ⟨by simp [verifyApiKeyCheck, hk], ?_⟩
    intro h hhk
    by_cases hemp : h = ""
    · simp [verifyApiKeyCheck, hk, hemp]
    · simp [verifyApiKeyCheck, hk, hemp, hhk]
  · intro α expected header cfgErr unauthErr handler
    constructor
    · intro hc; unfold guarded; rw [hc]
    · intro hc; unfold guarded; rw [hc]
  · intro apiKeyHeader clientId location fa cu gu fmtD fmtT
    rfl
  · intro apiKeyHeader clientId clientSecret id fo quantity now sr rr st
    rfl
